import Mathlib

/-!
Shallow embedding of the verl checkpoint-manager core:
`verl/workers/checkpoint/checkpoint_manager.py` (class `BaseCheckpointManager`)
and the rank-gated helper `download_files_distributed` from
`verl/utils/dataset/rm_dataset.py`, together with `RMDataset._pad_to_length`.

Python side effects are made explicit: the shared filesystem is a value of
type `FS` threaded through each operation, the process-group state is a
`Bool` flag plus a rank number, and a raised Python exception is an
`Except.error` result.
-/

namespace Verl

/-! ### Rank-gated distributed action (`download_files_distributed`) -/

/-- Embedding of `download_files_distributed(download_fn)` from
`verl/utils/dataset/rm_dataset.py`, run on one process.

* `download_fn : σ → σ` is the side-effecting action on the shared state `σ`
  (in the source, a closure mutating the filesystem / a shared location);
* `group_active` is `torch.distributed.is_initialized()`;
* `rank` is `torch.distributed.get_rank()` of the calling process;
* `s` is the shared state before the call.

The result is the shared state after the call together with a flag that is
`true` exactly when the process reached `torch.distributed.barrier()`
before returning. -/
def download_files_distributed {σ : Type} (download_fn : σ → σ)
    (group_active : Bool) (rank : Nat) (s : σ) : σ × Bool :=
  if group_active then
    (if rank = 0 then download_fn s else s, true)
  else
    (download_fn s, false)

/-- All ranks `0, 1, …, n-1` of an SPMD job call
`download_files_distributed`, each one observing the shared state left by
the previous ranks; the result is the final shared state.  (Which order the
ranks run in does not matter here: at most one of them applies the
action.) -/
def runGatedJob {σ : Type} (download_fn : σ → σ) (group_active : Bool)
    (n : Nat) (s : σ) : σ :=
  (List.range n).foldl
    (fun acc r => (download_files_distributed download_fn group_active r acc).1) s

/-! ### RNG state capsule (`get_rng_state` / `load_rng_state`) -/

/-- The concrete RNG streams the process exposes, one field per stream the
source touches: `torch.get_rng_state()` (framework CPU generator),
`torch.cuda.get_rng_state()` (accelerator generator),
`np.random.get_state()` (vectorized-math generator) and
`random.getstate()` (interpreter-level generator).  Each stream state is
abstracted to a `Nat`. -/
structure RngWorld where
  torch_cpu : Nat
  torch_cuda : Nat
  numpy : Nat
  python_random : Nat
deriving DecidableEq

/-- Embedding of `BaseCheckpointManager.get_rng_state`: builds the Python
dict `{'cpu': …, 'cuda': …, 'numpy': …, 'random': …}` as an association
list in the source's insertion order. -/
def get_rng_state (w : RngWorld) : List (String × Nat) :=
  [("cpu", w.torch_cpu), ("cuda", w.torch_cuda),
   ("numpy", w.numpy), ("random", w.python_random)]

/-- Python dict subscript `d[k]`: the value when the key is present,
otherwise a raised `KeyError k` (the error value carries the missing
key). -/
def dictGet (d : List (String × Nat)) (k : String) : Except String Nat :=
  match d.find? (fun kv => kv.1 = k) with
  | some kv => .ok kv.2
  | none => .error k

/-- Embedding of `BaseCheckpointManager.load_rng_state`: installs each
stream state from the capsule in source order (`cpu`, `cuda`, `numpy`,
`random`); subscripting a missing key raises `KeyError`, which surfaces as
`Except.error` with that key.  (In the source the per-stream installs
before the failing subscript have already happened; no claim here observes
that partially-updated world, so the raised call is rendered as the bare
error.) -/
def load_rng_state (caps : List (String × Nat)) (_w : RngWorld) :
    Except String RngWorld :=
  match dictGet caps "cpu" with
  | .error e => .error e
  | .ok c =>
    match dictGet caps "cuda" with
    | .error e => .error e
    | .ok cu =>
      match dictGet caps "numpy" with
      | .error e => .error e
      | .ok np =>
        match dictGet caps "random" with
        | .error e => .error e
        | .ok r =>
          .ok { torch_cpu := c, torch_cuda := cu, numpy := np,
                python_random := r }

/-- A deterministic stream of draws from an `RngWorld`: `step` produces one
draw and the successor world; `drawsAfter step n w` is the list of the next
`n` draws starting from `w`. -/
def drawsAfter (step : RngWorld → Nat × RngWorld) : Nat → RngWorld → List Nat
  | 0, _ => []
  | n + 1, w => (step w).1 :: drawsAfter step n (step w).2

/-! ### Filesystem model for `local_mkdir` and
`remove_previous_save_local_path` -/

/-- One filesystem entry: a regular file or a directory. -/
inductive FEntry
  | file
  | dir
deriving DecidableEq

/-- A flat filesystem: an association list from path to entry (first match
wins; `insert` keeps at most one entry per path). -/
structure FS where
  entries : List (String × FEntry)
deriving DecidableEq

def FS.empty : FS := ⟨[]⟩

def FS.lookup (fs : FS) (p : String) : Option FEntry :=
  (fs.entries.find? (fun kv => kv.1 = p)).map (fun kv => kv.2)

def FS.insert (fs : FS) (p : String) (e : FEntry) : FS :=
  ⟨(p, e) :: fs.entries.filter (fun kv => ¬ kv.1 = p)⟩

/-- Python-level filesystem exceptions raised by the modelled calls. -/
inductive FsErr
  | isADirectoryErr
  | fileExistsErr
deriving DecidableEq

/-- Whether a POSIX path is absolute: its first character is `/`. -/
def isAbsolutePath (b : String) : Bool :=
  match b.data with
  | [] => false
  | c :: _ => c = '/'

/-- `os.path.join(a, b)`: `b` verbatim when `b` is absolute, otherwise `a`
joined with `b` by a separator. -/
def ospath_join (a b : String) : String :=
  if isAbsolutePath b then b else a ++ "/" ++ b

/-- `tempfile.gettempdir()` of the process (environment constant). -/
def tempDir : String := "/tmp"

/-- `os.path.dirname(os.path.abspath(__file__))` for
`checkpoint_manager.py` (environment constant: the package installation
directory). -/
def packageDir : String := "/site-packages/verl/workers/checkpoint"

/-- The path-resolution step of `BaseCheckpointManager.local_mkdir`,
exactly the source's `if use_temp_dir / elif is_abs / else` chain:
scratch mode joins `path + '.lock'` under the temp directory,
absolute mode keeps `path` verbatim, package-relative mode joins `path`
under the package directory. -/
def resolveLocalMkdirPath (path : String) (use_temp_dir : Bool)
    (is_abs : Bool) : String :=
  if use_temp_dir then ospath_join tempDir (path ++ ".lock")
  else if is_abs then path
  else ospath_join packageDir path

/-- Acquiring `FileLock(p)` (the `filelock` package): opening the lock file
with `O_RDWR | O_CREAT | O_TRUNC`.  If `p` is an existing directory the
`os.open` call raises `IsADirectoryError`; if `p` is an existing regular
file it is opened (and truncated) in place; otherwise a fresh regular file
is created at `p`.  Releasing the lock does not unlink the file, so release
leaves the filesystem unchanged. -/
def fileLockAcquire (fs : FS) (p : String) : Except FsErr FS :=
  match fs.lookup p with
  | some .dir => .error .isADirectoryErr
  | some .file => .ok fs
  | none => .ok (fs.insert p .file)

/-- `os.makedirs(p, exist_ok=True)`: succeeds without change when `p` is
already a directory, raises `FileExistsError` when a non-directory entry
occupies `p` (`exist_ok` only forgives existing directories), and creates
the directory otherwise. -/
def makedirsExistOk (fs : FS) (p : String) : Except FsErr FS :=
  match fs.lookup p with
  | some .dir => .ok fs
  | some .file => .error .fileExistsErr
  | none => .ok (fs.insert p .dir)

/-- Embedding of `BaseCheckpointManager.local_mkdir(path, use_temp_dir,
is_abs)`: resolve the path, enter `with FileLock(path)`, call
`os.makedirs(path, exist_ok=True)` inside the lock, return the resolved
path.  The result pairs the filesystem after the call with either the
returned path or the raised exception; the `with` block releases the lock
on both the normal and the raising exit (release itself leaves the
filesystem unchanged). -/
def local_mkdir (fs : FS) (path : String) (use_temp_dir : Bool)
    (is_abs : Bool) : FS × Except FsErr String :=
  match fileLockAcquire fs (resolveLocalMkdirPath path use_temp_dir is_abs) with
  | .error e => (fs, .error e)
  | .ok fs1 =>
    match makedirsExistOk fs1 (resolveLocalMkdirPath path use_temp_dir is_abs) with
    | .error e => (fs1, .error e)
    | .ok fs2 => (fs2, .ok (resolveLocalMkdirPath path use_temp_dir is_abs))

/-- `shutil.rmtree(p, ignore_errors=True)`: when `p` is a directory its
entry is removed; any failure (missing path, a regular file at `p`, …) is
swallowed and leaves the filesystem as it was.  The call never raises. -/
def shutil_rmtree_ignore (fs : FS) (p : String) : FS :=
  match fs.lookup p with
  | some .dir => ⟨fs.entries.filter (fun kv => ¬ kv.1 = p)⟩
  | _ => fs

/-- Current working directory of the process (environment constant), used
by `os.path.abspath`. -/
def cwd : String := "/cwd"

/-- `os.path.abspath(p)`: `p` verbatim when already absolute, otherwise
resolved against the working directory. -/
def ospath_abspath (p : String) : String := ospath_join cwd p

/-- Embedding of
`BaseCheckpointManager.remove_previous_save_local_path(self)`.  `prev` is
`self.previous_save_local_path` (`none` for Python `None`; the source's
`if not self.previous_save_local_path` is also taken by the empty
string).  The call returns early when nothing is tracked or the absolute
path does not exist, and otherwise removes the tree best-effort with
`ignore_errors=True`; the `Except` form records that no branch raises. -/
def remove_previous_save_local_path (prev : Option String) (fs : FS) :
    Except FsErr FS :=
  match prev with
  | none => .ok fs
  | some p =>
    if p = "" then .ok fs
    else
      let abs_path := ospath_abspath p
      match fs.lookup abs_path with
      | none => .ok fs
      | some _ => .ok (shutil_rmtree_ignore fs abs_path)

/-! ### `RMDataset._pad_to_length` -/

/-- Embedding of `RMDataset._pad_to_length(self, input_ids,
attention_mask)` with `m` standing for `self.max_length` and 1-D tensors
as `List Int`.  `curr` is `input_ids.shape[-1]`; when `curr < max_length`
both tensors are extended with `max_length - curr` zeros (the amount is
computed from `input_ids` for both), when `curr > max_length` both are
sliced to their first `max_length` elements, and otherwise both are
returned unchanged. -/
def pad_to_length (m : Nat) (input_ids attention_mask : List Int) :
    List Int × List Int :=
  let curr := input_ids.length
  if curr < m then
    (input_ids ++ List.replicate (m - curr) 0,
     attention_mask ++ List.replicate (m - curr) 0)
  else if m < curr then
    (input_ids.take m, attention_mask.take m)
  else
    (input_ids, attention_mask)

/-! ### Spec-modelled `load_checkpoint` -/

/-- Errors of the load path, named after the spec's taxonomy (§7). -/
inductive CkptErr
  | checkpointNotFound
  | shardCountMismatch
deriving DecidableEq

/-- The shard file for a given rank index in a checkpoint directory,
located by its deterministic rank-indexed name. -/
def shardLookup (dir : List (Nat × String)) (r : Nat) : Option String :=
  (dir.find? (fun kv => kv.1 = r)).map (fun kv => kv.2)

/-- Modelled from the spec: `BaseCheckpointManager.load_checkpoint` is an
abstract stub in the source (`raise NotImplementedError`), so its load
contract is taken from spec §4.4: the calling rank reads its own shard
file by rank index, failing with `CheckpointNotFoundError` when that shard
file is absent, and a shard count different from the world size is a
`ShardCountMismatchError`.  `dir` is the checkpoint directory's set of
shard files keyed by rank index, `world` the world size, `rank` the
calling rank. -/
def load_checkpoint (dir : List (Nat × String)) (world : Nat) (rank : Nat) :
    Except CkptErr String :=
  match shardLookup dir rank with
  | none => .error .checkpointNotFound
  | some s => if dir.length = world then .ok s else .error .shardCountMismatch

/-! ## Theorems -/

/-- Helper: ranks other than 0 leave the shared state unchanged when the
group is active. -/
theorem foldl_gated_ne_zero {σ : Type} (f : σ → σ) (l : List Nat) (s : σ)
    (h : ∀ x ∈ l, x ≠ 0) :
    l.foldl (fun acc r => (download_files_distributed f true r acc).1) s = s := by
  induction l generalizing s with
  | nil => rfl
  | cons a t ih =>
    have ha : a ≠ 0 := h a (List.mem_cons_self a t)
    simp only [List.foldl_cons, download_files_distributed, if_pos rfl,
      if_neg ha]
    exact ih s (fun x hx => h x (List.mem_cons_of_mem a hx))

/-- Claim C1: with an active process group, `download_files_distributed`
runs the action only on rank 0 — across a job of `n ≥ 1` ranks the shared
side effect happens exactly once — and every rank, rank 0 included,
reaches the barrier before returning; without a process group the sole
process runs the action directly and no barrier is reached. -/
theorem download_files_distributed_rank_gated {σ : Type}
    (download_fn : σ → σ) (s : σ) (n r : Nat) (hn : 1 ≤ n) :
    runGatedJob download_fn true n s = download_fn s
    ∧ (download_files_distributed download_fn true r s).1
        = (if r = 0 then download_fn s else s)
    ∧ (download_files_distributed download_fn true r s).2 = true
    ∧ download_files_distributed download_fn false r s = (download_fn s, false) := by
  refine ⟨?_, ?_, ?_, ?_⟩
  · obtain ⟨m, rfl⟩ : ∃ m, n = m + 1 := ⟨n - 1, by omega⟩
    unfold runGatedJob
    rw [List.range_succ_eq_map, List.foldl_cons]
    have h0 : (download_files_distributed download_fn true 0 s).1
        = download_fn s := by
      simp [download_files_distributed]
    rw [h0]
    exact foldl_gated_ne_zero download_fn _ _
      (by intro x hx; rcases List.mem_map.mp hx with ⟨y, _, rfl⟩;
          exact Nat.succ_ne_zero y)
  · simp [download_files_distributed]
  · simp [download_files_distributed]
  · simp [download_files_distributed]

/-- Witness for C1: a simulated 4-rank group with a shared counter — the
counter increases by exactly 1, not 4, and a non-coordinator rank (rank 2)
leaves the state untouched while still reaching the barrier. -/
theorem download_files_distributed_rank_gated_witness :
    runGatedJob (fun c : Nat => c + 1) true 4 0 = 1
    ∧ (download_files_distributed (fun c : Nat => c + 1) true 2 0).1 = 0
    ∧ (download_files_distributed (fun c : Nat => c + 1) true 2 0).2 = true := by
  have h := download_files_distributed_rank_gated
    (fun c : Nat => c + 1) 0 4 2 (by decide)
  exact ⟨h.1, by rw [h.2.1]; rfl, h.2.2.1⟩

/-- Claim C2: restoring the capsule produced by `get_rng_state` via
`load_rng_state` succeeds and leaves every RNG stream unchanged, so any
`n` subsequent draws are identical to the draws made without the
capture/restore round trip. -/
theorem rng_round_trip (w : RngWorld) (step : RngWorld → Nat × RngWorld)
    (n : Nat) :
    ∃ w', load_rng_state (get_rng_state w) w = .ok w'
      ∧ w' = w
      ∧ drawsAfter step n w' = drawsAfter step n w := by
  refine ⟨w, ?_, rfl, rfl⟩
  cases w
  rfl

/-- Counterexample for C6: two RNG worlds that agree on all three streams
the claim names (accelerator-device `cuda`, vectorized-math `numpy`,
process-level `random`) but differ in the framework CPU stream yield
different capsules — so `get_rng_state` reads a fourth stream beyond the
claimed three. -/
theorem get_rng_state_extra_stream_cex :
    (RngWorld.mk 0 5 5 5).torch_cuda = (RngWorld.mk 1 5 5 5).torch_cuda
    ∧ (RngWorld.mk 0 5 5 5).numpy = (RngWorld.mk 1 5 5 5).numpy
    ∧ (RngWorld.mk 0 5 5 5).python_random = (RngWorld.mk 1 5 5 5).python_random
    ∧ get_rng_state (RngWorld.mk 0 5 5 5) ≠ get_rng_state (RngWorld.mk 1 5 5 5) := by
  refine ⟨rfl, rfl, rfl, ?_⟩
  decide

/-- Claim C6 (amended): every invocation of `get_rng_state` reads and
returns exactly the four fixed streams keyed `cpu`, `cuda`, `numpy`,
`random`: the capsule's keys are exactly that list, and two worlds produce
the same capsule precisely when they agree on all four streams. -/
theorem get_rng_state_exactly_four_streams (w1 w2 : RngWorld) :
    (get_rng_state w1).map Prod.fst = ["cpu", "cuda", "numpy", "random"]
    ∧ (get_rng_state w1 = get_rng_state w2 ↔ w1 = w2) := by
  cases w1
  cases w2
  constructor
  · rfl
  · simp [get_rng_state, RngWorld.mk.injEq]

/-- Claim C7: a capsule that lacks any one of the expected streams makes
`load_rng_state` fail with an explicit raised error (the `KeyError` of the
missing key, the spec's `RestoreError`) — no stream is skipped
silently. -/
theorem load_rng_state_missing_stream_fails (caps : List (String × Nat))
    (w : RngWorld) (k : String)
    (hk : k = "cpu" ∨ k = "cuda" ∨ k = "numpy" ∨ k = "random")
    (hmiss : caps.find? (fun kv => kv.1 = k) = none) :
    ∃ e, load_rng_state caps w = .error e := by
  have hk' : dictGet caps k = .error k := by
    simp [dictGet, hmiss]
  unfold load_rng_state
  rcases hk with h | h | h | h <;> subst h
  · rw [hk']
    exact ⟨_, rfl⟩
  · cases h1 : dictGet caps "cpu" with
    | error e => exact ⟨e, rfl⟩
    | ok v => rw [hk']; exact ⟨_, rfl⟩
  · cases h1 : dictGet caps "cpu" with
    | error e => exact ⟨e, rfl⟩
    | ok v =>
      cases h2 : dictGet caps "cuda" with
      | error e => exact ⟨e, rfl⟩
      | ok v2 => rw [hk']; exact ⟨_, rfl⟩
  · cases h1 : dictGet caps "cpu" with
    | error e => exact ⟨e, rfl⟩
    | ok v =>
      cases h2 : dictGet caps "cuda" with
      | error e => exact ⟨e, rfl⟩
      | ok v2 =>
        cases h3 : dictGet caps "numpy" with
        | error e => exact ⟨e, rfl⟩
        | ok v3 => rw [hk']; exact ⟨_, rfl⟩

/-- Witness for C7: a capsule holding every stream except `cuda` (as if
captured on a host without an accelerator) makes the restore fail. -/
theorem load_rng_state_missing_stream_fails_witness :
    ∃ e, load_rng_state [("cpu", 1), ("numpy", 2), ("random", 3)]
      (RngWorld.mk 0 0 0 0) = .error e :=
  load_rng_state_missing_stream_fails
    [("cpu", 1), ("numpy", 2), ("random", 3)] (RngWorld.mk 0 0 0 0)
    "cuda" (Or.inr (Or.inl rfl)) (by decide)

/-- Helper: inserting an entry makes it the one `lookup` finds at that
path. -/
theorem lookup_insert_self (fs : FS) (p : String) (e : FEntry) :
    (fs.insert p e).lookup p = some e := by
  unfold FS.lookup FS.insert
  rw [List.find?_cons_of_pos _ (by simp)]
  rfl

/-- Helper: a successful `FileLock` acquisition leaves a regular file at
the lock path (either the pre-existing lock file, reopened, or a freshly
created one). -/
theorem fileLockAcquire_ok_file (fs fs1 : FS) (p : String)
    (h : fileLockAcquire fs p = .ok fs1) : fs1.lookup p = some .file := by
  unfold fileLockAcquire at h
  cases hl : fs.lookup p with
  | none =>
    rw [hl] at h
    cases h
    exact lookup_insert_self fs p .file
  | some e =>
    cases e with
    | dir => rw [hl] at h; cases h
    | file => rw [hl] at h; cases h; exact hl

/-- Helper (shared): `local_mkdir` can never return successfully.  When the
resolved path is already a directory, acquiring `FileLock` on it raises
`IsADirectoryError`; in every other case the lock file the acquisition
creates (or finds) at the resolved path makes `os.makedirs` raise
`FileExistsError`, because the path is occupied by a regular file. -/
theorem local_mkdir_never_ok (fs : FS) (path : String)
    (use_temp_dir is_abs : Bool) :
    ∃ e, (local_mkdir fs path use_temp_dir is_abs).2 = .error e := by
  unfold local_mkdir
  cases hacq : fileLockAcquire fs (resolveLocalMkdirPath path use_temp_dir is_abs) with
  | error e => exact ⟨e, rfl⟩
  | ok fs1 =>
    refine ⟨.fileExistsErr, ?_⟩
    have hfile := fileLockAcquire_ok_file fs fs1 _ hacq
    have hmk : makedirsExistOk fs1
        (resolveLocalMkdirPath path use_temp_dir is_abs)
        = .error .fileExistsErr := by
      unfold makedirsExistOk
      rw [hfile]
    simp [local_mkdir, hacq, hmk]

/-- Claim C3 (code evaluated at the failing input): in scratch mode the
code resolves `"data"` to `/tmp/data.lock` — appending `.lock`, not the
claimed placement of the path itself under the temp root — and the call
then raises `FileExistsError` instead of returning a created directory's
path, because the lock file occupies the resolved path. -/
theorem local_mkdir_scratch_diverges :
    resolveLocalMkdirPath "data" true true = "/tmp/data.lock"
    ∧ "/tmp/data.lock" ≠ ospath_join tempDir "data"
    ∧ (local_mkdir FS.empty "data" true true).2 = .error .fileExistsErr := by
  refine ⟨rfl, ?_, rfl⟩
  decide

/-- Claim C4 (code evaluated at the failing inputs): `local_mkdir` is not
idempotent — when the resolved directory already exists the call raises
`IsADirectoryError` at lock acquisition instead of succeeding, and when it
does not exist the call raises `FileExistsError` because the freshly
created lock file occupies the path `os.makedirs` is given. -/
theorem local_mkdir_not_idempotent :
    (local_mkdir (FS.empty.insert "/ckpt" .dir) "/ckpt" false true).2
      = .error .isADirectoryErr
    ∧ (local_mkdir FS.empty "/ckpt" false true).2 = .error .fileExistsErr :=
  ⟨rfl, rfl⟩

/-- Claim C5 (code evaluated at the failing input): the lock is keyed at
the resolved directory path itself — after the call, a regular file (the
lock file) sits exactly at the path of the directory that was to be
created, and that file is what makes the creation fail.  The lock path is
therefore precisely the directory being created, not a separate
data-free path. -/
theorem local_mkdir_lock_occupies_target :
    FS.lookup (local_mkdir FS.empty "/ckpt" false true).1 "/ckpt"
      = some .file
    ∧ resolveLocalMkdirPath "/ckpt" false true = "/ckpt"
    ∧ (local_mkdir FS.empty "/ckpt" false true).2 = .error .fileExistsErr :=
  ⟨rfl, rfl, rfl⟩

/-- Claim C8: `remove_previous_save_local_path` never raises — every
branch returns normally: with no tracked handle (or the empty string) the
filesystem is untouched, with a tracked path that does not exist it is
untouched as well, and otherwise the tree removal runs with
`ignore_errors=True` and so also returns normally. -/
theorem remove_previous_save_never_raises (prev : Option String) (fs : FS) :
    (∃ fs', remove_previous_save_local_path prev fs = .ok fs')
    ∧ (prev = none → remove_previous_save_local_path prev fs = .ok fs)
    ∧ (∀ p, prev = some p → p ≠ "" →
        FS.lookup fs (ospath_abspath p) = none →
        remove_previous_save_local_path prev fs = .ok fs) := by
  refine ⟨?_, ?_, ?_⟩
  · unfold remove_previous_save_local_path
    cases prev with
    | none => exact ⟨fs, rfl⟩
    | some p =>
      by_cases hp : p = ""
      · simp [hp]
      · simp only [if_neg hp]
        cases h : fs.lookup (ospath_abspath p) with
        | none => exact ⟨fs, rfl⟩
        | some e => exact ⟨shutil_rmtree_ignore fs (ospath_abspath p), rfl⟩
  · rintro rfl
    rfl
  · rintro p rfl hp h
    unfold remove_previous_save_local_path
    simp [hp, h]

/-- Witness for C8: a manager tracking `/old_ckpt` on a filesystem where
that path does not exist — the cleanup returns normally without effect. -/
theorem remove_previous_save_never_raises_witness :
    remove_previous_save_local_path (some "/old_ckpt") FS.empty
      = .ok FS.empty :=
  (remove_previous_save_never_raises (some "/old_ckpt") FS.empty).2.2
    "/old_ckpt" rfl (by decide) rfl

/-- Claim C9: when the shard file for the calling rank's index is absent
from the checkpoint directory, `load_checkpoint` fails with
`CheckpointNotFoundError` — never a silent fallback to fresh state. -/
theorem load_checkpoint_missing_shard_fails (dir : List (Nat × String))
    (world rank : Nat) (h : shardLookup dir rank = none) :
    load_checkpoint dir world rank = .error .checkpointNotFound := by
  unfold load_checkpoint
  rw [h]

/-- Witness for C9: a world of 2 ranks whose checkpoint directory holds
only rank 0's shard — rank 1's load fails with the not-found error. -/
theorem load_checkpoint_missing_shard_fails_witness :
    load_checkpoint [(0, "shardA")] 2 1 = .error .checkpointNotFound :=
  load_checkpoint_missing_shard_fails [(0, "shardA")] 2 1 (by decide)

/-- Counterexample for C10: with `max_length = 3`, `input_ids = [5, 6]`
and `attention_mask = [1]`, the returned attention mask is `[1, 0]` — the
padding amount is computed from `input_ids`' length — so its
last-dimension length is 2, not `max_length`. -/
theorem pad_to_length_unequal_cex :
    (pad_to_length 3 [5, 6] [1]).2 = [1, 0]
    ∧ (pad_to_length 3 [5, 6] [1]).2.length ≠ 3 := by
  constructor
  · rfl
  · decide

/-- Claim C10 (amended): for every pair of 1-D `input_ids` and
`attention_mask` tensors of equal length, `pad_to_length` returns tensors
of length exactly `max_length`: shorter inputs are right-padded with
zeros, longer inputs are truncated to their first `max_length` elements,
and inputs of exactly `max_length` are returned unchanged. -/
theorem pad_to_length_matched (m : Nat) (ids mask : List Int)
    (h : mask.length = ids.length) :
    ((pad_to_length m ids mask).1.length = m
      ∧ (pad_to_length m ids mask).2.length = m)
    ∧ (ids.length < m →
        pad_to_length m ids mask
          = (ids ++ List.replicate (m - ids.length) 0,
             mask ++ List.replicate (m - ids.length) 0))
    ∧ (m < ids.length →
        pad_to_length m ids mask = (ids.take m, mask.take m))
    ∧ (ids.length = m → pad_to_length m ids mask = (ids, mask)) := by
  rcases Nat.lt_trichotomy ids.length m with hlt | heq | hgt
  · refine ⟨?_, fun _ => ?_, fun hc => absurd hc (by omega),
      fun hc => absurd hc (by omega)⟩
    · unfold pad_to_length
      simp only [if_pos hlt]
      constructor
      · simp [List.length_append, List.length_replicate]
        omega
      · simp [List.length_append, List.length_replicate, h]
        omega
    · unfold pad_to_length
      simp only [if_pos hlt]
  · refine ⟨?_, fun hc => absurd hc (by omega),
      fun hc => absurd hc (by omega), fun _ => ?_⟩
    · unfold pad_to_length
      simp only [if_neg (by omega : ¬ ids.length < m),
        if_neg (by omega : ¬ m < ids.length)]
      exact ⟨heq, h.trans heq⟩
    · unfold pad_to_length
      simp only [if_neg (by omega : ¬ ids.length < m),
        if_neg (by omega : ¬ m < ids.length)]
  · refine ⟨?_, fun hc => absurd hc (by omega), fun _ => ?_,
      fun hc => absurd hc (by omega)⟩
    · unfold pad_to_length
      simp only [if_neg (by omega : ¬ ids.length < m), if_pos hgt]
      constructor
      · simp [List.length_take]
        omega
      · simp [List.length_take, h]
        omega
    · unfold pad_to_length
      simp only [if_neg (by omega : ¬ ids.length < m), if_pos hgt]

/-- Witness for C10: equal-length inputs `[5, 6]` and `[7, 8]` with
`max_length = 3` come back zero-padded to length 3. -/
theorem pad_to_length_matched_witness :
    ((pad_to_length 3 [5, 6] [7, 8]).1.length = 3
      ∧ (pad_to_length 3 [5, 6] [7, 8]).2.length = 3)
    ∧ pad_to_length 3 [5, 6] [7, 8] = ([5, 6, 0], [7, 8, 0]) := by
  have h := pad_to_length_matched 3 [5, 6] [7, 8] rfl
  refine ⟨h.1, ?_⟩
  rw [h.2.1 (by decide)]
  rfl

end Verl
